import Mathlib

/-!
Shallow embedding of the contact-group-auth trust-tier service.

The embedding follows the Rust sources:
  * `src/db.rs`    — tiers, accounts, the four tables and the tier engine
    (`write_account`, `read_account`, `set_tier`, `set_contact_list`,
    `update_account`, `update_contact_list`, `update_follows`, ...);
  * `src/repo.rs`  — the rate limiter (`check_rate_limits`,
    `count_events_in_range`);
  * `src/nostr.rs` — `follows_from_event`;
  * `src/main.rs`  — the `event_admit` handler and the startup `init` sweep.

Conventions.  redb tables are modelled as total functions from keys; the
multimap tables hold duplicate-free lists (redb multimap insertion of an
already present value is a no-op, which `listInsert` mirrors).  `HashSet`
arguments become `List` arguments; iteration order of a Rust `HashSet` is
unspecified, so wherever the source iterates over one the model takes the
list order as given — every theorem below is either order-insensitive or
evaluated on lists of at most one element, where no freedom exists.
Machine integers (`u64`, `usize`, the `u8` tier byte) are modelled as `Nat`;
no arithmetic below ever approaches overflow, and the single subtraction
`unix_time() - range` is truncated at zero exactly like `Nat` subtraction
would truncate (in the source `now` always exceeds the window length).
Fallible Rust functions that the claims exercise only through their
success path are modelled as total functions on states; the storage-fault
behaviour of the `event_admit` handler is modelled with an explicit
outcome record (`RepoOutcomes`), where a Rust `.unwrap()` of an `Err`
(a panic) becomes `none`.
-/

namespace ContactGroupAuth

/-- Identities are 64-character lowercase hex strings (`String` keys). -/
abbrev Key := String

/-- Update one entry of a table modelled as a total function. -/
def updateFun [DecidableEq α] (m : α → β) (k : α) (v : β) : α → β :=
  fun x => if x = k then v else m x

/-- Insertion into a duplicate-free list, modelling multimap/`HashSet`
insertion: inserting a present value is a no-op. -/
def listInsert [DecidableEq α] (v : α) (l : List α) : List α :=
  if v ∈ l then l else v :: l

/-- `HashSet::difference` collected to a set: elements of `l₁` not in `l₂`. -/
def listDiff [DecidableEq α] (l₁ l₂ : List α) : List α :=
  l₁.filter (fun v => decide (v ∉ l₂))

/-- The five trust tiers of `src/db.rs` (`enum Tier`), most trusted first. -/
inductive Tier where
  | Primary
  | Secondary
  | Tertiary
  | Quaternary
  | Other
deriving DecidableEq, Repr

/-- The discriminant stored in the account table (`account.tier as u8`). -/
def Tier.toU8 : Tier → Nat
  | .Primary => 0
  | .Secondary => 1
  | .Tertiary => 2
  | .Quaternary => 3
  | .Other => 4

/-- `impl From<u8> for Tier` of `src/db.rs`: 0..3 decode to the named
tiers, every other byte decodes to `Other`. -/
def Tier.fromU8 : Nat → Tier
  | 0 => .Primary
  | 1 => .Secondary
  | 2 => .Tertiary
  | 3 => .Quaternary
  | _ => .Other

/-- `Tier::raise_tier` of `src/db.rs`: one step toward `Other` ("demote"
in the specification's vocabulary), with `Other` as fixed point. -/
def Tier.raise_tier : Tier → Tier
  | .Primary => .Secondary
  | .Secondary => .Tertiary
  | .Tertiary => .Quaternary
  | .Quaternary => .Other
  | .Other => .Other

/-- The derived Rust `Ord` on `Tier` compares discriminants. -/
def Tier.ltb (a b : Tier) : Bool :=
  decide (a.toU8 < b.toU8)

/-- `struct Account` of `src/db.rs`. -/
structure Account where
  pubkey : Key
  tier : Tier
deriving DecidableEq, Repr

/-- The four redb tables of `src/db.rs`.  The account table stores the
raw tier byte, exactly as `table.insert(pubkey, tier as u8)` does. -/
structure DbState where
  account : Key → Option Nat
  events : Key → List Nat
  follows : Key → List Key
  followers : Key → List Key

/-- `struct Db` of `src/db.rs`: the database plus the configured primary
set. -/
structure Db where
  state : DbState
  primary : List Key

/-- Freshly created tables: all empty. -/
def emptyState : DbState :=
  { account := fun _ => none
    events := fun _ => []
    follows := fun _ => []
    followers := fun _ => [] }

/-- `Db::new(primary)` on a fresh file: empty tables, given primary set. -/
def dbNew (primary : List Key) : Db :=
  { state := emptyState, primary := primary }

/-- `Db::write_account`: upsert `pubkey ↦ tier as u8`. -/
def writeAccount (d : Db) (a : Account) : Db :=
  { d with
    state :=
      { d.state with
        account := updateFun d.state.account a.pubkey (some a.tier.toU8) } }

/-- `Db::read_account`: decode the stored byte back through `Tier::from`. -/
def readAccount (d : Db) (pubkey : Key) : Option Account :=
  match d.state.account pubkey with
  | some b => some { pubkey := pubkey, tier := Tier.fromU8 b }
  | none => none

/-- `Db::write_event`: multimap insert of a timestamp. -/
def writeEvent (d : Db) (pubkey : Key) (timestamp : Nat) : Db :=
  { d with
    state :=
      { d.state with
        events := updateFun d.state.events pubkey
          (listInsert timestamp (d.state.events pubkey)) } }

/-- `Db::get_events`. -/
def getEvents (d : Db) (pubkey : Key) : List Nat :=
  d.state.events pubkey

/-- `Db::set_tier`: upsert the same tier byte for every key of the set. -/
def setTier (d : Db) (keys : List Key) (tier : Tier) : Db :=
  { d with
    state :=
      { d.state with
        account := fun k =>
          if k ∈ keys then some tier.toU8 else d.state.account k } }

/-- `Db::clear_tables`: empty all four tables. -/
def clearTables (d : Db) : Db :=
  { d with state := emptyState }

/-- `Db::add_follows`: insert every contact into `follows[pubkey]`. -/
def addFollows (d : Db) (pubkey : Key) (contacts : List Key) : Db :=
  { d with
    state :=
      { d.state with
        follows := updateFun d.state.follows pubkey
          (contacts.foldl (fun acc f => listInsert f acc)
            (d.state.follows pubkey)) } }

/-- `Db::add_followers`: insert `pubkey` into `followers[f]` for every
contact `f`. -/
def addFollowers (d : Db) (pubkey : Key) (contacts : List Key) : Db :=
  { d with
    state :=
      { d.state with
        followers := fun k =>
          if k ∈ contacts then listInsert pubkey (d.state.followers k)
          else d.state.followers k } }

/-- `Db::remove_follows`: remove every listed followee from
`follows[pubkey]`. -/
def removeFollows (d : Db) (pubkey : Key) (follows : List Key) : Db :=
  { d with
    state :=
      { d.state with
        follows := updateFun d.state.follows pubkey
          (listDiff (d.state.follows pubkey) follows) } }

/-- `Db::remove_followers`: remove `pubkey` from `followers[f]` for every
listed `f`. -/
def removeFollowers (d : Db) (pubkey : Key) (followers : List Key) : Db :=
  { d with
    state :=
      { d.state with
        followers := fun k =>
          if k ∈ followers then
            (d.state.followers k).filter (fun v => decide (v ≠ pubkey))
          else d.state.followers k } }

/-- `Db::set_contact_list`: add followers, then follows (no filtering of
any kind — in particular no self-loop filtering). -/
def setContactList (d : Db) (pubkey : Key) (contacts : List Key) : Db :=
  addFollows (addFollowers d pubkey contacts) pubkey contacts

/-- `Db::get_follows`. -/
def getFollows (d : Db) (pubkey : Key) : List Key :=
  d.state.follows pubkey

/-- `Db::get_followers`. -/
def getFollowers (d : Db) (pubkey : Key) : List Key :=
  d.state.followers pubkey

/-- `Db::get_account_tiers` applied to one account: a missing record
defaults to `Tier::Other` (also `Repo::get_account_tier`). -/
def tierOf (d : Db) (pubkey : Key) : Tier :=
  match readAccount d pubkey with
  | some a => a.tier
  | none => Tier.Other

/-- Minimum of a list of tiers by discriminant, `None` on the empty list,
modelling `followers.iter().min_by_key(|&(_, v)| v).map(|(_, v)| *v)`
(ties return the same value whichever entry wins). -/
def minTierOfList : List Tier → Option Tier
  | [] => none
  | t :: ts =>
    match minTierOfList ts with
    | none => some t
    | some m => some (if t.toU8 ≤ m.toU8 then t else m)

/-- `Db::update_account` — the per-identity `recompute(p, hint)` of the
specification.  Start from the hint; a primary key is pinned to
`Primary`; otherwise the minimum follower tier, raised one step, replaces
the hint when it is strictly more trusted. -/
def updateAccount (d : Db) (pubkey : Key) (minTier : Tier) : Db :=
  let followerTiers := (getFollowers d pubkey).map (tierOf d)
  let tier :=
    if pubkey ∈ d.primary then Tier.Primary
    else
      match minTierOfList followerTiers with
      | some m =>
        if m.raise_tier.ltb minTier then m.raise_tier else minTier
      | none => minTier
  writeAccount d { pubkey := pubkey, tier := tier }

/-- `Db::update_follows`: for each key of the set, update its account
with the given floor, then update each of its followees one step lower. -/
def updateFollows (d : Db) (follows : List Key) (minTier : Tier) : Db :=
  match follows with
  | [] => d
  | f :: rest =>
    let followsFollowers := getFollows d f
    let d₁ := updateAccount d f minTier
    let d₂ := followsFollowers.foldl
      (fun acc ff => updateAccount acc ff minTier.raise_tier) d₁
    updateFollows d₂ rest minTier

/-- `Db::update_contact_list` — the specification's
`apply_contact_update(u, new_set)`.  A missing account record aborts
silently. -/
def updateContactList (d : Db) (pubkey : Key) (newContacts : List Key) : Db :=
  match readAccount d pubkey with
  | none => d
  | some account =>
    let currentFollows := getFollows d pubkey
    let d₁ := setContactList d pubkey newContacts
    let newFollows := listDiff newContacts currentFollows
    let unfollowed := listDiff currentFollows newContacts
    let d₂ := removeFollows d₁ pubkey unfollowed
    let d₃ := removeFollowers d₂ pubkey unfollowed
    let d₄ := updateFollows d₃ newFollows account.tier.raise_tier
    updateFollows d₄ unfollowed Tier.Other

/-- `struct Limitation` of `src/config.rs`. -/
structure Limitation where
  can_publish : Bool
  events_per_hour : Option Nat
  events_per_day : Option Nat
deriving DecidableEq, Repr

/-- `count_events_in_range` of `src/repo.rs`: timestamps strictly after
`now - range` (`now` is sampled by the caller; the model passes it in). -/
def count_events_in_range (events : List Nat) (now range : Nat) : Nat :=
  let since_time := now - range
  (events.filter (fun t => decide (t > since_time))).length

/-- `Repo::check_rate_limits` of `src/repo.rs`.  The outer guard of the
source reads `limits.events_per_day.is_some() || limits.events_per_day.is_some()`
— the same field twice — and is reproduced verbatim here. -/
def checkRateLimits (limits : Limitation) (events : List Nat) (now : Nat) :
    Bool × Option String :=
  if limits.events_per_day.isSome || limits.events_per_day.isSome then
    if (match limits.events_per_day with
        | some maxPerDay =>
          decide (count_events_in_range events now 86400 > maxPerDay)
        | none => false) then
      (false, some "24 hours limit exhausted")
    else if (match limits.events_per_hour with
        | some maxPerHour =>
          decide (count_events_in_range events now 3600 > maxPerHour)
        | none => false) then
      (false, some "Hour limit exhausted")
    else
      (true, none)
  else
    (true, none)

/-- The per-tier sections of `struct Settings` (`src/config.rs`). -/
structure Settings where
  primary : Limitation
  secondary : Limitation
  tertiary : Limitation
  quaternary : Limitation
  other : Limitation
deriving DecidableEq, Repr

/-- `get_limitation` of `src/main.rs`. -/
def getLimitation (settings : Settings) (tier : Tier) : Limitation :=
  match tier with
  | .Primary => settings.primary
  | .Secondary => settings.secondary
  | .Tertiary => settings.tertiary
  | .Quaternary => settings.quaternary
  | .Other => settings.other

/-- The `Decision` enum of the wire schema (`Unspecified = 0`). -/
inductive Decision where
  | Unspecified
  | Permit
  | Deny
deriving DecidableEq, Repr

/-- `EventReply` of the wire schema. -/
structure EventReply where
  decision : Decision
  message : Option String
deriving DecidableEq, Repr

/-- Outcomes of the fallible repository calls made by `event_admit`, in
call order.  `Except.error ()` stands for a storage fault surfaced as
`Err` by the corresponding `Repo` method. -/
structure RepoOutcomes where
  tierLookup : Except Unit Tier
  rateCheck : Except Unit (Bool × Option String)
  recordEvent : Except Unit Unit
  contactUpdate : Except Unit Unit

/-- `EventAuthz::event_admit` of `src/main.rs`, with the fallible repo
calls abstracted by `RepoOutcomes`.  `none` models a panic: the source
calls `.unwrap()` on the tier lookup, on `add_event` and on
`update_contacts`, so an `Err` from any of those unwinds the handler
instead of producing a reply; only a rate-check `Err` is matched and
turned into a DENY/"Error" reply. -/
def admitHandler (settings : Settings) (isKind3 : Bool) (r : RepoOutcomes) :
    Option EventReply :=
  match r.tierLookup with
  | Except.error _ => none
  | Except.ok tier =>
    let limitation := getLimitation settings tier
    if limitation.can_publish then
      match r.rateCheck with
      | Except.ok (true, msg) =>
        match r.recordEvent with
        | Except.error _ => none
        | Except.ok _ =>
          if isKind3 then
            match r.contactUpdate with
            | Except.error _ => none
            | Except.ok _ => some { decision := Decision.Permit, message := msg }
          else
            some { decision := Decision.Permit, message := msg }
      | Except.ok (false, msg) =>
        some { decision := Decision.Deny, message := msg }
      | Except.error _ =>
        some { decision := Decision.Deny, message := some "Error" }
    else
      some { decision := Decision.Deny, message := some "Not allowed to publish" }

/-- `follows_from_event` of `src/nostr.rs`:
`event.tags.iter().map(|tag| tag.as_vec()[1].clone()).collect()`.
Each tag contributes the element at index 1 of its string vector,
whatever the tag type and whatever the string; a tag with fewer than two
elements makes the index panic, modelled as `none`. -/
def follows_from_event (tags : List (List String)) : Option (List String) :=
  tags.foldl
    (fun acc tag =>
      match acc with
      | none => none
      | some s =>
        match tag.get? 1 with
        | none => none
        | some v => some (listInsert v s))
    (some [])

/-- Flat-map of the followee lists of fetched contact lists, collected to
a set and filtered, modelling the `.flat_map(..).filter(..).collect()`
chains of `init`. -/
def collectFollows (contacts : List (Key × List Key)) (keep : Key → Bool) :
    List Key :=
  (contacts.foldl (fun acc kv => kv.2.foldl (fun a f => listInsert f a) acc)
    []).filter keep

/-- The startup sweep `init` of `src/main.rs` (lines 160–228).  Its
external inputs are the configured primary keys and the contact lists
fetched for the primary and first-hop identities; the fetch of the
second-hop contact lists and the Quaternary assignment are commented out
in the source, so `init` ends after the Tertiary pass.  The `retain` and
`filter` guards reproduce the source's `||` combinations verbatim. -/
def init (primaryKeys : List Key)
    (primaryContacts secondaryContacts : List (Key × List Key))
    (d₀ : Db) : Db :=
  let d := clearTables d₀
  let primary := primaryKeys
  let d := setTier d primary Tier.Primary
  let primary_follows :=
    collectFollows primaryContacts (fun k => !(primary.contains k))
  let d := setTier d primary_follows Tier.Secondary
  let d := primaryContacts.foldl
    (fun acc kv => updateContactList acc kv.1 kv.2) d
  let secondary_contacts := secondaryContacts.filter
    (fun kv => !(primary.contains kv.1) || !(primary_follows.contains kv.1))
  let secondary_follows := collectFollows secondary_contacts
    (fun k => !(primary.contains k) || !(primary_follows.contains k))
  let d := setTier d secondary_follows Tier.Tertiary
  let d := secondary_contacts.foldl
    (fun acc kv => updateContactList acc kv.1 kv.2) d
  d

/-- The four identities of the specification's end-to-end scenarios
(§8), as used by the tests of `src/db.rs`. -/
def keyA : Key := "7995c67e4b40fcc88f7603fcedb5f2133a74b89b2678a332b21faee725f039f9"

/-- Scenario identity B. -/
def keyB : Key := "d81eb632d2385c3e6bdc8da5a32b57275348819aebd39ff74613793f29694203"

/-- Scenario identity C. -/
def keyC : Key := "7c27a04b7c27299f16dc07d3eb8f28544f188bc7a34982328b7d581edc405dc2"

/-- Scenario identity D. -/
def keyD : Key := "5b3a49bcbdf41f511f5c9034dbe46240863b73b39a2fdfebfb611f23b88d3922"

/-- Scenario S1: primary set `{A}`, `write_account(A, Primary)`,
`apply_contact_update(A, {B, C})`. -/
def stateS1 : Db :=
  updateContactList
    (writeAccount (dbNew [keyA]) { pubkey := keyA, tier := Tier.Primary })
    keyA [keyB, keyC]

/-- Scenario S4, built from S1: `write_account(B, Secondary)` (already
so) and `apply_contact_update(B, {D})`. -/
def stateS4 : Db :=
  updateContactList
    (writeAccount stateS1 { pubkey := keyB, tier := Tier.Secondary })
    keyB [keyD]

/-- Settings with every tier allowed to publish and no caps, used to
drive the admit handler through its permit path. -/
def settingsOpen : Settings :=
  { primary := { can_publish := true, events_per_hour := none, events_per_day := none }
    secondary := { can_publish := true, events_per_hour := none, events_per_day := none }
    tertiary := { can_publish := true, events_per_hour := none, events_per_day := none }
    quaternary := { can_publish := true, events_per_hour := none, events_per_day := none }
    other := { can_publish := true, events_per_hour := none, events_per_day := none } }

/-- Test policy: publish allowed, hour cap 1, no day cap. -/
def limHourOnly : Limitation :=
  { can_publish := true, events_per_hour := some 1, events_per_day := none }

/-- Test policy: publish allowed, hour cap 1, day cap 10. -/
def limHourAndDay : Limitation :=
  { can_publish := true, events_per_hour := some 1, events_per_day := some 10 }

/-- Test policy: publish allowed, hour cap 2, day cap 2. -/
def limBothTwo : Limitation :=
  { can_publish := true, events_per_hour := some 2, events_per_day := some 2 }

/-! Helper lemmas about the list-set primitives and about which tables
each operation touches. -/

theorem mem_listInsert [DecidableEq α] (x v : α) (l : List α) :
    x ∈ listInsert v l ↔ x = v ∨ x ∈ l := by
  unfold listInsert
  split_ifs with h
  · constructor
    · exact Or.inr
    · rintro (rfl | hx)
      · exact h
      · exact hx
  · simp [List.mem_cons]

theorem mem_foldl_listInsert [DecidableEq α] (contacts acc : List α) (x : α) :
    x ∈ contacts.foldl (fun a f => listInsert f a) acc ↔ x ∈ contacts ∨ x ∈ acc := by
  induction contacts generalizing acc with
  | nil => simp
  | cons c cs ih =>
    simp only [List.foldl_cons, ih, mem_listInsert, List.mem_cons]
    tauto

theorem mem_listDiff [DecidableEq α] (l₁ l₂ : List α) (x : α) :
    x ∈ listDiff l₁ l₂ ↔ x ∈ l₁ ∧ x ∉ l₂ := by
  simp [listDiff, List.mem_filter]

theorem follows_updateAccount (d : Db) (p : Key) (t : Tier) :
    (updateAccount d p t).state.follows = d.state.follows := rfl

theorem follows_foldl_updateAccount (d : Db) (l : List Key) (t : Tier) :
    (l.foldl (fun acc ff => updateAccount acc ff t) d).state.follows =
      d.state.follows := by
  induction l generalizing d with
  | nil => rfl
  | cons f fs ih =>
    simp only [List.foldl_cons]
    rw [ih, follows_updateAccount]

theorem follows_updateFollows (d : Db) (l : List Key) (t : Tier) :
    (updateFollows d l t).state.follows = d.state.follows := by
  induction l generalizing d with
  | nil => rfl
  | cons f fs ih =>
    simp only [updateFollows]
    rw [ih, follows_foldl_updateAccount, follows_updateAccount]

theorem follows_removeFollowers (d : Db) (p : Key) (l : List Key) :
    (removeFollowers d p l).state.follows = d.state.follows := rfl

theorem follows_addFollowers (d : Db) (p : Key) (l : List Key) :
    (addFollowers d p l).state.follows = d.state.follows := rfl

/-- Core lemma behind P4/I5 analysis: after `update_contact_list(u, s)`
for an identity with an account record, the stored follow set of `u` is
exactly `s` — membership-wise — regardless of the previous contents. -/
theorem follows_after_update (d : Db) (u : Key) (s : List Key) (a : Account)
    (h : readAccount d u = some a) (x : Key) :
    x ∈ getFollows (updateContactList d u s) u ↔ x ∈ s := by
  unfold updateContactList
  rw [h]
  simp only [getFollows, follows_updateFollows, follows_removeFollowers,
    removeFollows, setContactList, addFollows, follows_addFollowers, updateFun]
  simp only [if_true, mem_listDiff, mem_foldl_listInsert]
  constructor
  · rintro ⟨h1 | h2, h3⟩
    · exact h1
    · by_contra hxs
      exact h3 ⟨h2, hxs⟩
  · intro hs
    exact ⟨Or.inl hs, fun hc => hc.2 hs⟩

/-! Claim theorems. -/

/-- Claim C1, counterexample.  A policy with `per_hour = 1` and `per_day`
unset, and two timestamps inside the hour window: the claim demands
DENY/"Hour limit exhausted", but `check_rate_limits` — whose outer guard
tests `events_per_day.is_some()` twice instead of consulting
`events_per_hour` — skips both checks and permits. -/
theorem checkRateLimits_hour_skip_cex :
    count_events_in_range [9999, 10000] 10000 3600 = 2 ∧
    checkRateLimits limHourOnly [9999, 10000] 10000 = (true, none) ∧
    checkRateLimits limHourOnly [9999, 10000] 10000 ≠
      (false, some "Hour limit exhausted") := by decide

/-- Claim C1, amended: if `per_hour = n` and additionally `per_day` is
set and its day-window count is within its cap, then an hour-window
count strictly above `n` yields DENY with "Hour limit exhausted". -/
theorem checkRateLimits_hour_deny (limits : Limitation) (events : List Nat)
    (now n m : Nat) (hh : limits.events_per_hour = some n)
    (hd : limits.events_per_day = some m)
    (hdc : count_events_in_range events now 86400 ≤ m)
    (hhc : count_events_in_range events now 3600 > n) :
    checkRateLimits limits events now = (false, some "Hour limit exhausted") := by
  unfold checkRateLimits
  rw [hd, hh]
  have h1 : decide (count_events_in_range events now 86400 > m) = false := by
    simp only [decide_eq_false_iff_not]
    omega
  have h2 : decide (count_events_in_range events now 3600 > n) = true := by
    simpa using hhc
  simp [h1, h2]

/-- Claim C1, witness for the amended theorem. -/
theorem checkRateLimits_hour_deny_witness :
    checkRateLimits limHourAndDay [9999, 10000] 10000 =
      (false, some "Hour limit exhausted") :=
  checkRateLimits_hour_deny _ _ _ 1 10 rfl rfl (by decide) (by decide)

/-- Claim C2.  Seeding `init` with primary set `{A}`, A's fetched
contact list `{B}` and B's fetched contact list `{C}` (C in turn follows
D in the wider graph, but `init` never fetches C's list — the tertiary
pass of `src/main.rs` is commented out): the sweep assigns Secondary to
B and Tertiary to C, and the third-hop followee D ends with no record at
all, i.e. tier `Other`, not `Quaternary` as the claim states. -/
theorem init_no_quaternary_assigned :
    readAccount (init [keyA] [(keyA, [keyB])] [(keyB, [keyC])] (dbNew [keyA]))
      keyD = none ∧
    tierOf (init [keyA] [(keyA, [keyB])] [(keyB, [keyC])] (dbNew [keyA]))
      keyD = Tier.Other ∧
    tierOf (init [keyA] [(keyA, [keyB])] [(keyB, [keyC])] (dbNew [keyA]))
      keyB = Tier.Secondary ∧
    tierOf (init [keyA] [(keyA, [keyB])] [(keyB, [keyC])] (dbNew [keyA]))
      keyC = Tier.Tertiary := by decide

/-- Claim C3.  The handler panics (result `none`) when the tier lookup,
the event recording or the contact-list update returns a storage fault —
the source unwraps all three — instead of producing the DENY/"Error"
(resp. PERMIT) replies the claim requires; only a rate-check fault is
caught and turned into DENY/"Error" (last conjunct). -/
theorem admitHandler_panics_on_faults :
    admitHandler settingsOpen false
      { tierLookup := Except.error (), rateCheck := Except.ok (true, none),
        recordEvent := Except.ok (), contactUpdate := Except.ok () } = none ∧
    admitHandler settingsOpen false
      { tierLookup := Except.ok Tier.Other, rateCheck := Except.ok (true, none),
        recordEvent := Except.error (), contactUpdate := Except.ok () } = none ∧
    admitHandler settingsOpen true
      { tierLookup := Except.ok Tier.Other, rateCheck := Except.ok (true, none),
        recordEvent := Except.ok (), contactUpdate := Except.error () } = none ∧
    admitHandler settingsOpen false
      { tierLookup := Except.ok Tier.Other, rateCheck := Except.error (),
        recordEvent := Except.ok (), contactUpdate := Except.ok () } =
      some { decision := Decision.Deny, message := some "Error" } := by decide

/-- Claim C4.  `follows_from_event` performs no validation at all: a tag
with fewer than two elements panics (result `none`) instead of being
dropped silently, and the second element of a tag is accepted verbatim
even when it is not a 64-character hex string. -/
theorem follows_from_event_unvalidated :
    follows_from_event [["p"]] = none ∧
    follows_from_event [["p", "zz"]] = some ["zz"] := by decide

/-- Claim C5, counterexample.  An identity with an account record whose
new contact set contains itself: after `update_contact_list(A, {A})` the
follows table of A contains A — the self-loop is stored, not filtered. -/
theorem updateContactList_self_loop_cex :
    keyA ∈ getFollows (updateContactList
      (writeAccount (dbNew []) { pubkey := keyA, tier := Tier.Primary })
      keyA [keyA]) keyA := by decide

/-- Claim C5, amended: the contact-list code performs no self-loop
filtering — whenever `u` has an account record and the input set `S`
contains `u`, the self-loop `u ∈ follows[u]` is present afterwards. -/
theorem updateContactList_keeps_self_loop (d : Db) (u : Key) (s : List Key)
    (h : (readAccount d u).isSome = true) (hu : u ∈ s) :
    u ∈ getFollows (updateContactList d u s) u := by
  obtain ⟨a, ha⟩ := Option.isSome_iff_exists.mp h
  exact (follows_after_update d u s a ha u).mpr hu

/-- Claim C5, witness for the amended theorem. -/
theorem updateContactList_keeps_self_loop_witness :
    keyA ∈ getFollows (updateContactList
      (writeAccount (dbNew []) { pubkey := keyA, tier := Tier.Primary })
      keyA [keyA, keyB]) keyA :=
  updateContactList_keeps_self_loop _ keyA [keyA, keyB] (by decide) (by decide)

/-- Claim C6.  For an identity with an account record,
`update_contact_list(u, S)` followed by `get_follows(u)` yields exactly
the set `S`: stale follows are removed and new ones added. -/
theorem updateContactList_follows_exact (d : Db) (u : Key) (s : List Key)
    (h : (readAccount d u).isSome = true) :
    ∀ x : Key, x ∈ getFollows (updateContactList d u s) u ↔ x ∈ s := by
  obtain ⟨a, ha⟩ := Option.isSome_iff_exists.mp h
  exact follows_after_update d u s a ha

/-- Claim C6, witness. -/
theorem updateContactList_follows_exact_witness :
    ((readAccount (writeAccount (dbNew [])
      { pubkey := keyA, tier := Tier.Primary }) keyA).isSome = true) ∧
    (keyB ∈ getFollows (updateContactList (writeAccount (dbNew [])
      { pubkey := keyA, tier := Tier.Primary }) keyA [keyB, keyC]) keyA ↔
      keyB ∈ [keyB, keyC]) :=
  ⟨by decide,
   updateContactList_follows_exact _ keyA [keyB, keyC] (by decide) keyB⟩

/-- Claim C7.  For an identity in the configured primary set,
`update_account(p, hint)` stores tier `Primary`, whatever the followers
and whatever the hint. -/
theorem updateAccount_primary_pinned (d : Db) (p : Key) (hint : Tier)
    (h : p ∈ d.primary) :
    tierOf (updateAccount d p hint) p = Tier.Primary := by
  simp [updateAccount, writeAccount, tierOf, readAccount, updateFun, h,
    Tier.toU8, Tier.fromU8]

/-- Claim C7, witness. -/
theorem updateAccount_primary_pinned_witness :
    tierOf (updateAccount (dbNew [keyA]) keyA Tier.Other) keyA = Tier.Primary :=
  updateAccount_primary_pinned (dbNew [keyA]) keyA Tier.Other (by decide)

/-- Claim C8.  In scenario state S4 (primary A follows B and C, B is
Secondary and follows D, D is Tertiary), `apply_contact_update(A, {C})`
demotes both the unfollowed B and its followee D to `Other`. -/
theorem scenario_two_hop_unfollow_demotes :
    tierOf stateS4 keyB = Tier.Secondary ∧
    tierOf stateS4 keyD = Tier.Tertiary ∧
    keyD ∈ getFollows stateS4 keyB ∧
    tierOf (updateContactList stateS4 keyA [keyC]) keyB = Tier.Other ∧
    tierOf (updateContactList stateS4 keyA [keyC]) keyD = Tier.Other := by decide

/-- Claim C9.  A count equal to the cap never denies on that limit: the
day message requires a day count strictly above the day cap and the hour
message an hour count strictly above the hour cap. -/
theorem checkRateLimits_at_cap_admits (limits : Limitation) (events : List Nat)
    (now cap : Nat) :
    (limits.events_per_day = some cap →
      count_events_in_range events now 86400 ≤ cap →
      (checkRateLimits limits events now).2 ≠ some "24 hours limit exhausted") ∧
    (limits.events_per_hour = some cap →
      count_events_in_range events now 3600 ≤ cap →
      (checkRateLimits limits events now).2 ≠ some "Hour limit exhausted") := by
  constructor
  · intro hd hc
    unfold checkRateLimits
    rw [hd]
    have h1 : decide (count_events_in_range events now 86400 > cap) = false := by
      simp only [decide_eq_false_iff_not]
      omega
    simp only [Option.isSome_some, Bool.or_self, if_true, h1,
      Bool.false_eq_true, if_false]
    split
    · simp
    · simp
  · intro hh hc
    unfold checkRateLimits
    rw [hh]
    have h2 : decide (count_events_in_range events now 3600 > cap) = false := by
      simp only [decide_eq_false_iff_not]
      omega
    cases hd : limits.events_per_day with
    | none => simp [hd]
    | some m =>
      simp only [hd, Option.isSome_some, Bool.or_self, if_true, h2,
        Bool.false_eq_true, if_false]
      split
      · simp
      · simp

/-- Claim C9, witness. -/
theorem checkRateLimits_at_cap_admits_witness :
    ((checkRateLimits limBothTwo [9999, 10000] 10000).2 ≠
      some "24 hours limit exhausted") ∧
    ((checkRateLimits limBothTwo [9999, 10000] 10000).2 ≠
      some "Hour limit exhausted") :=
  ⟨(checkRateLimits_at_cap_admits _ [9999, 10000] 10000 2).1 rfl (by decide),
   (checkRateLimits_at_cap_admits _ [9999, 10000] 10000 2).2 rfl (by decide)⟩

/-- Claim C10.  Writing an account (via `write_account` or `set_tier`)
and reading it back returns the same pubkey and tier; the tier byte
round-trips through `Tier::from`, and decoding is total with every byte
outside 0..3 mapping to `Other`. -/
theorem account_write_read_roundtrip :
    (∀ (d : Db) (a : Account),
      readAccount (writeAccount d a) a.pubkey = some a) ∧
    (∀ (d : Db) (keys : List Key) (t : Tier) (p : Key), p ∈ keys →
      readAccount (setTier d keys t) p = some { pubkey := p, tier := t }) ∧
    (∀ t : Tier, Tier.fromU8 t.toU8 = t) ∧
    (∀ b : Nat, 4 ≤ b → Tier.fromU8 b = Tier.Other) := by
  refine ⟨?_, ?_, ?_, ?_⟩
  · rintro d ⟨pk, t⟩
    cases t <;>
      simp [readAccount, writeAccount, updateFun, Tier.toU8, Tier.fromU8]
  · intro d keys t p hp
    cases t <;> simp [readAccount, setTier, hp, Tier.toU8, Tier.fromU8]
  · intro t
    cases t <;> rfl
  · intro b hb
    obtain ⟨n, rfl⟩ : ∃ n, b = n + 4 := ⟨b - 4, by omega⟩
    rfl

/-- Claim C10, witness. -/
theorem account_write_read_roundtrip_witness :
    readAccount (writeAccount (dbNew []) { pubkey := keyA, tier := Tier.Tertiary })
      keyA = some { pubkey := keyA, tier := Tier.Tertiary } ∧
    readAccount (setTier (dbNew []) [keyB] Tier.Secondary) keyB =
      some { pubkey := keyB, tier := Tier.Secondary } ∧
    Tier.fromU8 (Tier.toU8 Tier.Quaternary) = Tier.Quaternary ∧
    Tier.fromU8 9 = Tier.Other :=
  ⟨account_write_read_roundtrip.1 _ _,
   account_write_read_roundtrip.2.1 _ [keyB] _ keyB (by decide),
   account_write_read_roundtrip.2.2.1 _,
   account_write_read_roundtrip.2.2.2 9 (by decide)⟩

end ContactGroupAuth
